import Mathlib

/-!
Verification development for the `dino` repository.

The repository is a thin orchestration layer: an image-normalization
pipeline (`src/utils.py`) and a structured-response extractor
(`src/dino_analyzer.py`, `src/models.py`).  This file gives a shallow
embedding of that core and proves the testable properties of the spec about it.

Conventions of the embedding:
* Python `Optional`/exception-based control flow becomes `Option`/`Except`.
* Machine integers are `Nat`/`Int` (pixel channels are small naturals).
* The floating-point aspect-ratio computation of PIL in `Image.thumbnail` is
  rendered in exact integer arithmetic (cross-multiplied comparisons),
  which is the exact-rational reading of the same formulas.
* The remote inference service is an abstract outcome (`ServiceOutcome`):
  either a transport/service failure or a textual payload.
* The filesystem is a list of existing paths.
-/

namespace Dino

/-! ## JSON values and the Pydantic model (`src/models.py`)

`DinosaurInfo` is a Pydantic `BaseModel` with four required `str` fields.
`model_validate_json` parses a JSON text and validates it against the
schema: the value must be a JSON object, each of the four keys must be
present, and each value must be a JSON string (Pydantic v2 does not coerce
numbers or other values into `str`).  Extra keys are ignored.  We embed
JSON at the level of its value tree; a payload that is not syntactically
valid JSON is the distinguished `ResponseText.malformed` case. -/

inductive Json where
  | null
  | bool (b : Bool)
  | num (n : Int)
  | str (s : String)
  | arr (elems : List Json)
  | obj (fields : List (String × Json))

/-- The record of `models.py`: four required textual fields. -/
structure DinosaurInfo where
  species_name : String
  color_description : String
  geological_period : String
  brief_info : String
deriving DecidableEq

/-- Key lookup in a parsed JSON object (first binding wins; no claim in
this development involves duplicate keys). -/
def jsonLookup : List (String × Json) → String → Option Json
  | [], _ => none
  | (k, v) :: rest, key => if k = key then some v else jsonLookup rest key

/-- A required `str` field accepts exactly JSON strings. -/
def asStr : Json → Option String
  | .str s => some s
  | _ => none

/-- Validation of a JSON value against the `DinosaurInfo` schema:
all four fields present, all four values strings. -/
def modelValidate (j : Json) : Option DinosaurInfo :=
  match j with
  | .obj fields =>
      match (jsonLookup fields "species_name").bind asStr,
            (jsonLookup fields "color_description").bind asStr,
            (jsonLookup fields "geological_period").bind asStr,
            (jsonLookup fields "brief_info").bind asStr with
      | some sn, some cd, some gp, some bi => some ⟨sn, cd, gp, bi⟩
      | _, _, _, _ => none
  | _ => none

/-- A textual service payload: either not syntactically valid JSON,
or a JSON value. -/
inductive ResponseText where
  | malformed
  | wellFormed (j : Json)

/-- Embedding of `DinosaurInfo.model_validate_json`: parse the text, then validate. -/
def modelValidateJson : ResponseText → Option DinosaurInfo
  | .malformed => none
  | .wellFormed j => modelValidate j

/-- Embedding of `DinosaurInfo.model_dump_json`: it produces a JSON object with the four
fields as top-level keys (embedded at the JSON-value level). -/
def modelDump (r : DinosaurInfo) : Json :=
  .obj [("species_name", .str r.species_name),
        ("color_description", .str r.color_description),
        ("geological_period", .str r.geological_period),
        ("brief_info", .str r.brief_info)]

/-! ## The extractor (`src/dino_analyzer.py`)

`DinosaurAnalyzer.__init__` resolves the credential: an explicit `api_key`
argument, falling back to the `GEMINI_API_KEY` environment variable only
when the argument is `None`; a falsy result (`None` or `""`) raises
`ValueError` before `genai.configure` and before any service interaction.
`analyze_image` / `analyze_image_from_pil` call the service once and parse
the reply with `model_validate_json`; every raised exception is caught and
turned into `None`. -/

/-- Result of constructing `DinosaurAnalyzer`: the configured key on
success, the `ValueError` message on failure, together with the number of
calls made to the inference service during construction (the constructor
never contacts the service). -/
structure InitResult where
  outcome : Except String String
  serviceCalls : Nat

/-- Embedding of `DinosaurAnalyzer.__init__ (api_key)` with environment variable
`GEMINI_API_KEY = env` (`none` models an unset variable). -/
def analyzerInit (apiKey : Option String) (env : Option String) : InitResult :=
  let key := match apiKey with
    | none => env
    | some k => some k
  match key with
  | none => ⟨.error "API key not found", 0⟩
  | some k => if k = "" then ⟨.error "API key not found", 0⟩ else ⟨.ok k, 0⟩

/-- One round trip to the inference service: a transport/service-level
failure (any raised exception), or a textual payload. -/
inductive ServiceOutcome where
  | failure
  | success (text : ResponseText)

/-- The response-handling core of `DinosaurAnalyzer.analyze_image` and
`analyze_image_from_pil`: a service failure is caught and becomes `None`;
a payload is parsed with `DinosaurInfo.model_validate_json`, and a parse
failure (caught `ValidationError`) also becomes `None`. -/
def analyzeResponse : ServiceOutcome → Option DinosaurInfo
  | .failure => none
  | .success t => modelValidateJson t

/-! ## Temporary files (`src/utils.py`: `save_temp_image`,
`cleanup_temp_file`; `src/dino_analyzer.py`: `analyze_image_from_pil`)

The filesystem is the list of existing paths. -/

/-- Existing paths. -/
abbrev FS := List String

/-- Embedding of `cleanup_temp_file`: if the path exists, remove it and return `True`;
otherwise return `False`.  (The `except` branch has no counterpart: the
embedded removal is total.) -/
def cleanup_temp_file (fs : FS) (path : String) : Bool × FS :=
  if path ∈ fs then (true, List.filter (fun q => decide ¬(q = path)) fs)
  else (false, fs)

/-- Embedding of `save_temp_image`: persist the optimized image under a unique name
`"temp_dino_" ++ suffix ++ ".jpg"` (the uuid4 hex fragment is the
`suffix` parameter) and return the path. -/
def save_temp_image (fs : FS) (suffix : String) : String × FS :=
  let path := "temp_dino_" ++ suffix ++ ".jpg"
  (path, path :: fs)

/-- Embedding of `DinosaurAnalyzer.analyze_image_from_pil`, with the image-independent
parts abstracted: persist a temp file, run the service round trip and
parse, and in the `finally` block clean the temp file up when its path is
set (a nonempty string).  Returns the analysis result and the final
filesystem. -/
def analyze_image_from_pil (fs : FS) (suffix : String) (outcome : ServiceOutcome) :
    Option DinosaurInfo × FS :=
  let saved := save_temp_image fs suffix
  let result := analyzeResponse outcome
  let fsFinal := if saved.1 = "" then saved.2 else (cleanup_temp_file saved.2 saved.1).2
  (result, fsFinal)

/-! ## Images (`src/utils.py`)

A PIL image is its size, its mode, its pixel grid, and (for mode `P`) a
palette with an optional transparent index; `orientation` is the EXIF
orientation tag (`0` models an absent tag; PIL acts on values 2 through 8).
Pixels are mode-tagged channel tuples. -/

/-- PIL modes relevant to `optimize_image_for_api`: `RGB`, the three
transparency-capable modes it branches on (`RGBA`, `LA`, `P`), and `L`
standing in for the remaining non-RGB modes that take the
`convert("RGB")` branch. -/
inductive Mode where
  | RGB
  | RGBA
  | LA
  | L
  | P
deriving DecidableEq

/-- A pixel: channels as stored for each mode (`p` is a palette index). -/
inductive Px where
  | rgb (r g b : Nat)
  | rgba (r g b a : Nat)
  | la (l a : Nat)
  | l (v : Nat)
  | p (idx : Nat)
deriving DecidableEq

/-- A PIL image. -/
structure Img where
  width : Nat
  height : Nat
  mode : Mode
  px : Nat → Nat → Px
  palette : Nat → Nat × Nat × Nat
  transparency : Option Nat
  orientation : Nat

/-- The target-size computation of `PIL.Image.thumbnail` for a bound
`maxW × maxH`: no-op when the image already fits; otherwise round the
aspect-preserving exact size, choosing between floor and ceiling by
closeness of the resulting aspect ratio, with a minimum of 1.  PIL does
this in binary64 floats; here the same formulas are evaluated in exact
integer arithmetic (comparisons cross-multiplied by the positive
denominators). -/
def thumbnailSize (maxW maxH w h : Nat) : Nat × Nat :=
  if w ≤ maxW ∧ h ≤ maxH then (w, h)
  else if w * maxH ≤ h * maxW then
    -- key n = |w/h - n/maxH|, common denominator h*maxH:
    -- compare |w*maxH - n*h| for n = floor, ceiling of maxH*w/h
    let num := maxH * w
    let f := num / h
    let c := (num + h - 1) / h
    let keyf := ((w * maxH : Int) - f * h).natAbs
    let keyc := ((w * maxH : Int) - c * h).natAbs
    (max (if keyf ≤ keyc then f else c) 1, maxH)
  else
    -- key n = if n = 0 then 0 else |w/h - maxW/n|; key f ≤ key c becomes
    -- |w*f - maxW*h| * c ≤ |w*c - maxW*h| * f after clearing denominators
    let num := maxW * h
    let f := num / w
    let c := (num + w - 1) / w
    let keyf := ((w * f : Int) - maxW * h).natAbs * c
    let keyc := ((w * c : Int) - maxW * h).natAbs * f
    (maxW, max (if f = 0 then f else if keyf ≤ keyc then f else c) 1)

/-- Embedding of `resize_image_if_needed`: when either dimension exceeds the bound,
`image.thumbnail(max_size, LANCZOS)` shrinks the image in place to the
`thumbnailSize` target; the resampled pixel grid is supplied by the
`resample` argument (the LANCZOS kernel, kept abstract).  The function
returns the same (possibly mutated) image object. -/
def resize_image_if_needed (resample : Img → Nat × Nat → Nat → Nat → Px)
    (img : Img) : Img :=
  if 1024 < img.width ∨ 1024 < img.height then
    let s := thumbnailSize 1024 1024 img.width img.height
    { img with width := s.1, height := s.2, px := resample img s }
  else img

/-- Embedding of `ImageOps.exif_transpose`: act on EXIF orientation values 2 through 8
(flip/rotate the pixel grid, delete the tag), otherwise return the image
unchanged (as a copy). -/
def exif_transpose (img : Img) : Img :=
  if img.orientation = 2 then      -- FLIP_LEFT_RIGHT
    { img with px := fun x y => img.px (img.width - 1 - x) y, orientation := 0 }
  else if img.orientation = 3 then -- ROTATE_180
    { img with px := fun x y => img.px (img.width - 1 - x) (img.height - 1 - y),
               orientation := 0 }
  else if img.orientation = 4 then -- FLIP_TOP_BOTTOM
    { img with px := fun x y => img.px x (img.height - 1 - y), orientation := 0 }
  else if img.orientation = 5 then -- TRANSPOSE
    { img with width := img.height, height := img.width,
               px := fun x y => img.px y x, orientation := 0 }
  else if img.orientation = 6 then -- ROTATE_270
    { img with width := img.height, height := img.width,
               px := fun x y => img.px y (img.height - 1 - x), orientation := 0 }
  else if img.orientation = 7 then -- TRANSVERSE
    { img with width := img.height, height := img.width,
               px := fun x y => img.px (img.width - 1 - y) (img.height - 1 - x),
               orientation := 0 }
  else if img.orientation = 8 then -- ROTATE_90
    { img with width := img.height, height := img.width,
               px := fun x y => img.px (img.width - 1 - y) x, orientation := 0 }
  else img

/-- The conversion of one pixel to `RGB` channels (`Image.convert("RGB")`
and the mode conversion `Image.paste` applies to a pasted image):
drop alpha, replicate luminance, look palette indices up. -/
def pxToRGB (palette : Nat → Nat × Nat × Nat) : Px → Nat × Nat × Nat
  | .rgb r g b => (r, g, b)
  | .rgba r g b _ => (r, g, b)
  | .la v _ => (v, v, v)
  | .l v => (v, v, v)
  | .p i => palette i

/-- The alpha channel of a pixel, `255` (opaque) when the mode carries
none; for mode `RGBA` this is the last band, `image.split()[-1]`. -/
def pxAlpha : Px → Nat
  | .rgba _ _ _ a => a
  | .la _ a => a
  | _ => 255

/-- Embedding of `Image.convert("RGBA")` on one pixel: palette indices become their
palette color with alpha `0` at the transparent index and `255`
elsewhere; other modes get an opaque (or their own) alpha channel. -/
def pxToRGBA (palette : Nat → Nat × Nat × Nat) (transparency : Option Nat) :
    Px → Px
  | .rgb r g b => .rgba r g b 255
  | .rgba r g b a => .rgba r g b a
  | .la v a => .rgba v v v a
  | .l v => .rgba v v v 255
  | .p i =>
      let c := palette i
      .rgba c.1 c.2.1 c.2.2 (if transparency = some i then 0 else 255)

/-- Embedding of `Image.convert("RGBA")` on a whole image (used for mode `P`). -/
def convertRGBA (img : Img) : Img :=
  { img with mode := .RGBA,
             px := fun x y => pxToRGBA img.palette img.transparency (img.px x y) }

/-- Embedding of `Image.convert("RGB")` on a whole image. -/
def convertRGB (img : Img) : Img :=
  { img with mode := .RGB,
             px := fun x y =>
               let c := pxToRGB img.palette (img.px x y)
               .rgb c.1 c.2.1 c.2.2 }

/-- The `MULDIV255(a, b)` macro of Pillow, from `Paste.c`:
`tmp = a*b + 128; ((tmp >> 8) + tmp) >> 8`. -/
def muldiv255 (a b : Nat) : Nat :=
  ((a * b + 128) / 256 + (a * b + 128)) / 256

/-- One channel of `Image.paste` with an `L`-mode mask (the `BLEND` macro of Pillow):
mask `0` keeps the background, mask `255` takes the pasted pixel. -/
def blendChannel (mask bg fg : Nat) : Nat :=
  muldiv255 bg (255 - mask) + muldiv255 fg mask

/-- Pasting one pixel onto the opaque white background of
`optimize_image_for_api`: with the alpha band as mask (the `RGBA` case)
blend against white; without a mask (the `LA` case) the pasted image is
converted to `RGB` and copied over the background directly. -/
def pasteOnWhite (palette : Nat → Nat × Nat × Nat) (useAlphaMask : Bool)
    (q : Px) : Px :=
  let c := pxToRGB palette q
  if useAlphaMask then
    let a := pxAlpha q
    .rgb (blendChannel a 255 c.1) (blendChannel a 255 c.2.1)
         (blendChannel a 255 c.2.2)
  else
    .rgb c.1 c.2.1 c.2.2

/-- Embedding of `optimize_image_for_api`: resize if needed, apply EXIF orientation,
then normalize the color mode — `RGBA`/`LA`/`P` images are pasted onto a
freshly created opaque white `RGB` background (`P` after a `convert("RGBA")`,
and with the alpha band as paste mask only in the `RGBA` case), and any
other non-`RGB` mode is converted directly. -/
def optimize_image_for_api (resample : Img → Nat × Nat → Nat → Nat → Px)
    (img : Img) : Img :=
  let step1 := resize_image_if_needed resample img
  let step2 := exif_transpose step1
  if step2.mode = .RGBA ∨ step2.mode = .LA ∨ step2.mode = .P then
    let step3 := if step2.mode = .P then convertRGBA step2 else step2
    { width := step3.width, height := step3.height, mode := .RGB,
      px := fun x y =>
        pasteOnWhite step3.palette (decide (step3.mode = .RGBA)) (step3.px x y),
      palette := fun _ => (0, 0, 0), transparency := none, orientation := 0 }
  else if step2.mode ≠ .RGB then convertRGB step2
  else step2

/-- The image object of the caller after a call to `optimize_image_for_api`:
only the in-place `thumbnail` inside `resize_image_if_needed` mutates the
input, so the input object ends up equal to the result of the resize step
(the EXIF and color-mode steps build new images). -/
def optimize_input_after (resample : Img → Nat × Nat → Nat → Nat → Px)
    (img : Img) : Img :=
  resize_image_if_needed resample img

/-- Pixel equivalence: same size, same mode, same pixels inside the
canvas. -/
def pixEquiv (a b : Img) : Prop :=
  a.width = b.width ∧ a.height = b.height ∧ a.mode = b.mode ∧
    ∀ x y, x < a.width → y < a.height → a.px x y = b.px x y

/-- A concrete stand-in resampling kernel (nearest neighbor), used to
instantiate theorems that hold for every kernel. -/
def sampleNearest (img : Img) (s : Nat × Nat) (x y : Nat) : Px :=
  img.px (x * img.width / max s.1 1) (y * img.height / max s.2 1)

/-- A 1x1 `LA` image whose single pixel is fully transparent black. -/
def exLA : Img := ⟨1, 1, .LA, fun _ _ => .la 0 0, fun _ => (0, 0, 0), none, 0⟩

/-- A 1x1 `RGBA` image whose single pixel is fully transparent. -/
def exRGBA : Img := ⟨1, 1, .RGBA, fun _ _ => .rgba 5 6 7 0, fun _ => (0, 0, 0), none, 0⟩

/-- A 2048x1024 `RGB` image (exceeds the 1024x1024 bound). -/
def exWide : Img := ⟨2048, 1024, .RGB, fun _ _ => .rgb 1 2 3, fun _ => (0, 0, 0), none, 0⟩

/-- A 100x100 `RGB` image (within the 1024x1024 bound). -/
def exSmall : Img := ⟨100, 100, .RGB, fun _ _ => .rgb 1 2 3, fun _ => (0, 0, 0), none, 0⟩

/-- The four required keys of the `DinosaurInfo` schema. -/
def requiredKeys : List String :=
  ["species_name", "color_description", "geological_period", "brief_info"]

/-- Fully transparent at `(x, y)`: the pixel is in a fully-transparent
region of the image under the interpretation of its mode — alpha `0` for
`RGBA` and `LA`, the transparent palette index for `P`.  Opaque modes have
no transparent pixels. -/
def fullyTransparentAt (img : Img) (x y : Nat) : Bool :=
  match img.mode, img.px x y with
  | .RGBA, .rgba _ _ _ a => a = 0
  | .LA, .la _ a => a = 0
  | .P, .p i => img.transparency = some i
  | _, _ => false

/-! ## Helper lemmas -/

/-- Extracting a required string field succeeds exactly on a JSON string. -/
lemma bind_asStr_eq_some_iff {o : Option Json} {s : String} :
    o.bind asStr = some s ↔ o = some (.str s) := by
  cases o with
  | none => simp
  | some v => cases v <;> simp [asStr]

/-! ## Claims about the extractor and the record -/

/-- Claim C5. With no credential available — the `api_key` argument either
absent or the empty string, and likewise for the `GEMINI_API_KEY`
environment variable — constructing `DinosaurAnalyzer` raises the
configuration `ValueError` and performs zero calls to the inference
service. -/
theorem init_missing_key_config_error (apiKey env : Option String)
    (hApi : ∀ s, apiKey = some s → s = "") (hEnv : ∀ s, env = some s → s = "") :
    (analyzerInit apiKey env).outcome = .error "API key not found" ∧
    (analyzerInit apiKey env).serviceCalls = 0 := by
  cases apiKey with
  | none =>
      cases env with
      | none => exact ⟨rfl, rfl⟩
      | some s => have := hEnv s rfl; subst this; exact ⟨rfl, rfl⟩
  | some s => have := hApi s rfl; subst this; exact ⟨rfl, rfl⟩

/-- Witness for `init_missing_key_config_error` at a concrete input. -/
theorem init_missing_key_config_error_witness :
    (analyzerInit (some "") none).outcome = .error "API key not found" ∧
    (analyzerInit (some "") none).serviceCalls = 0 :=
  init_missing_key_config_error (some "") none
    (fun s h => by injection h with h; exact h.symm) (fun s h => by cases h)

/-- Claim C10. The environment fallback is consulted only when the
`api_key` argument is `None`: passing an explicit empty string raises the
configuration error even when `GEMINI_API_KEY` is set to a non-empty
value. -/
theorem empty_override_beats_env (env : String) (_henv : env ≠ "") :
    (analyzerInit (some "") (some env)).outcome = .error "API key not found" := rfl

/-- Witness for `empty_override_beats_env` at a concrete input. -/
theorem empty_override_beats_env_witness :
    (analyzerInit (some "") (some "secret-key")).outcome =
      .error "API key not found" :=
  empty_override_beats_env "secret-key" (by decide)

/-- Claim C6. Extraction never surfaces a partially filled record and never
crashes: a service failure yields no record; a malformed payload yields no
record; a payload missing any of the four required fields, or carrying a
non-string value there, yields no record; and whenever a record is
returned, the payload was a JSON object providing all four fields as
strings, copied verbatim into the record. -/
theorem analyze_no_partial_record :
    (analyzeResponse .failure = none) ∧
    (analyzeResponse (.success .malformed) = none) ∧
    (∀ fields k, k ∈ requiredKeys → (jsonLookup fields k).bind asStr = none →
        analyzeResponse (.success (.wellFormed (.obj fields))) = none) ∧
    (∀ o r, analyzeResponse o = some r →
        ∃ fields, o = .success (.wellFormed (.obj fields)) ∧
          jsonLookup fields "species_name" = some (.str r.species_name) ∧
          jsonLookup fields "color_description" = some (.str r.color_description) ∧
          jsonLookup fields "geological_period" = some (.str r.geological_period) ∧
          jsonLookup fields "brief_info" = some (.str r.brief_info)) := by
  refine ⟨rfl, rfl, ?_, ?_⟩
  · intro fields k hk hnone
    simp only [requiredKeys, List.mem_cons, List.mem_singleton,
      List.not_mem_nil, or_false] at hk
    simp only [analyzeResponse, modelValidateJson, modelValidate]
    split
    · rcases hk with rfl | rfl | rfl | rfl <;> simp_all
    · rfl
  · intro o r h
    cases o with
    | failure => exact absurd h (by simp [analyzeResponse])
    | success t =>
      cases t with
      | malformed => exact absurd h (by simp [analyzeResponse, modelValidateJson])
      | wellFormed j =>
        cases j with
        | obj fields =>
          refine ⟨fields, rfl, ?_⟩
          simp only [analyzeResponse, modelValidateJson, modelValidate] at h
          split at h
          · rename_i sn cd gp bi hsn hcd hgp hbi
            injection h with h
            subst h
            exact ⟨bind_asStr_eq_some_iff.mp hsn, bind_asStr_eq_some_iff.mp hcd,
              bind_asStr_eq_some_iff.mp hgp, bind_asStr_eq_some_iff.mp hbi⟩
          · exact absurd h (by simp)
        | null => exact absurd h (by simp [analyzeResponse, modelValidateJson, modelValidate])
        | bool b => exact absurd h (by simp [analyzeResponse, modelValidateJson, modelValidate])
        | num n => exact absurd h (by simp [analyzeResponse, modelValidateJson, modelValidate])
        | str s => exact absurd h (by simp [analyzeResponse, modelValidateJson, modelValidate])
        | arr es => exact absurd h (by simp [analyzeResponse, modelValidateJson, modelValidate])

/-- Witness for `analyze_no_partial_record` at concrete inputs: a payload
whose `species_name` is a number yields no record. -/
theorem analyze_no_partial_record_witness :
    analyzeResponse (.success (.wellFormed (.obj [("species_name", .num 3)]))) =
      none :=
  analyze_no_partial_record.2.2.1 [("species_name", .num 3)] "species_name"
    (by simp [requiredKeys]) (by simp [jsonLookup, asStr])

/-- Claim C8. Round-trip of the export artifact: serializing any
`DinosaurInfo` with `model_dump_json` and parsing the result back with
`model_validate_json` yields a field-for-field identical record (the
fields are arbitrary strings, so non-Latin text is covered). -/
theorem dump_validate_roundtrip (r : DinosaurInfo) :
    modelValidateJson (.wellFormed (modelDump r)) = some r := rfl

/-- Claim C9. A syntactically valid JSON object with the four correct field
names and empty-string values is treated as success: extraction returns
the record with four empty fields, not a parse failure. -/
theorem empty_strings_accepted :
    analyzeResponse (.success (.wellFormed (.obj
      [("species_name", .str ""), ("color_description", .str ""),
       ("geological_period", .str ""), ("brief_info", .str "")]))) =
      some ⟨"", "", "", ""⟩ := rfl

/-! ## Claims about temporary files -/

/-- The temp path built by `save_temp_image` is never the empty string. -/
lemma save_temp_path_ne_empty (fs : FS) (suffix : String) :
    (save_temp_image fs suffix).1 ≠ "" := by
  intro h
  have hl := congrArg String.length h
  have h1 : ("temp_dino_" : String).length = 10 := rfl
  have h2 : (".jpg" : String).length = 4 := rfl
  have h3 : ("" : String).length = 0 := rfl
  simp only [save_temp_image, String.length_append, h1, h2, h3] at hl
  omega

/-- Claim C7. After `cleanup_temp_file` returns, the path no longer exists;
calling it on an already-removed path returns `false` rather than
failing; and `analyze_image_from_pil` ends with the persisted temporary
file removed on every exit path — success, parse failure and service
failure alike. -/
theorem cleanup_removes_path :
    (∀ (fs : FS) (path : String), path ∉ (cleanup_temp_file fs path).2) ∧
    (∀ (fs : FS) (path : String), path ∉ fs →
        (cleanup_temp_file fs path).1 = false) ∧
    (∀ (fs : FS) (suffix : String) (o : ServiceOutcome),
        (save_temp_image fs suffix).1 ∉ (analyze_image_from_pil fs suffix o).2) := by
  have hclean : ∀ (fs : FS) (path : String), path ∉ (cleanup_temp_file fs path).2 := by
    intro fs path
    simp only [cleanup_temp_file]
    split
    · simp [List.mem_filter]
    · assumption
  refine ⟨hclean, ?_, ?_⟩
  · intro fs path hnot
    simp [cleanup_temp_file, hnot]
  · intro fs suffix o
    simp only [analyze_image_from_pil, save_temp_path_ne_empty fs suffix,
      if_neg]
    exact hclean _ _

/-- Witness for `cleanup_removes_path` at a concrete input. -/
theorem cleanup_removes_path_witness :
    (cleanup_temp_file ["a.jpg"] "b.jpg").1 = false :=
  cleanup_removes_path.2.1 ["a.jpg"] "b.jpg" (by decide)

/-! ## Lemmas about `thumbnailSize` -/

/-- Bound `|a - b| ≤ c` over the integers, from the two natural inequalities. -/
lemma natAbs_cast_sub_le {a b c : Nat} (h1 : a ≤ b + c) (h2 : b ≤ a + c) :
    ((a : Int) - b).natAbs ≤ c := by omega

/-- Swapping the operands of an integer subtraction of naturals keeps the
absolute value. -/
lemma natAbs_cast_sub_comm (a b : Nat) :
    ((a : Int) - b).natAbs = ((b : Int) - a).natAbs := by omega

/-- Rounding `num / h` down (then clamping to at least 1) moves the scaled
value by at most one denominator. -/
lemma round_floor_abs (num h : Nat) (hh : 0 < h) :
    (((max (num / h) 1 * h : Nat) : Int) - (num : Int)).natAbs ≤ h := by
  have f1 : num / h * h ≤ num := Nat.div_mul_le_self num h
  have hdm := Nat.div_add_mod num h
  have hml : num % h < h := Nat.mod_lt num hh
  rw [Nat.mul_comm h (num / h)] at hdm
  rcases Nat.lt_or_ge (num / h) 1 with h0 | h1
  · have hz : num / h = 0 := Nat.lt_one_iff.mp h0
    rw [hz] at hdm ⊢
    have hmax : max 0 1 * h = h := by norm_num
    rw [hmax]
    exact natAbs_cast_sub_le (by omega) (by omega)
  · rw [max_eq_left h1]
    generalize num / h * h = t at f1 hdm
    exact natAbs_cast_sub_le (by omega) (by omega)

/-- Rounding `num / h` up (then clamping to at least 1) moves the scaled
value by at most one denominator. -/
lemma round_ceil_abs (num h : Nat) (hh : 0 < h) :
    (((max ((num + h - 1) / h) 1 * h : Nat) : Int) - (num : Int)).natAbs ≤ h := by
  have f1 : (num + h - 1) / h * h ≤ num + h - 1 := Nat.div_mul_le_self _ h
  have hdm := Nat.div_add_mod (num + h - 1) h
  have hml : (num + h - 1) % h < h := Nat.mod_lt _ hh
  rw [Nat.mul_comm h ((num + h - 1) / h)] at hdm
  rcases Nat.lt_or_ge ((num + h - 1) / h) 1 with h0 | h1
  · have hz : (num + h - 1) / h = 0 := Nat.lt_one_iff.mp h0
    rw [hz] at hdm ⊢
    have hmax : max 0 1 * h = h := by norm_num
    rw [hmax]
    exact natAbs_cast_sub_le (by omega) (by omega)
  · rw [max_eq_left h1]
    generalize (num + h - 1) / h * h = t at f1 hdm
    exact natAbs_cast_sub_le (by omega) (by omega)

/-- Division bound: `num / h ≤ m` when `num ≤ m * h`. -/
lemma div_le_of_le_mul {num h m : Nat} (hh : 0 < h) (hle : num ≤ m * h) :
    num / h ≤ m := by
  have h1 : num / h ≤ m * h / h := Nat.div_le_div_right hle
  have h2 : m * h / h = m := by
    rw [Nat.mul_comm, Nat.mul_div_cancel_left _ hh]
  omega

/-- The rounded-up quotient `(num + h - 1) / h ≤ m` when `num ≤ m * h`. -/
lemma ceilDiv_le_of_le_mul {num h m : Nat} (hh : 0 < h) (hle : num ≤ m * h) :
    (num + h - 1) / h ≤ m := by
  have hstep : num + h - 1 ≤ h - 1 + m * h := by omega
  have h1 : (num + h - 1) / h ≤ (h - 1 + m * h) / h := Nat.div_le_div_right hstep
  have h2 : (h - 1 + m * h) / h = (h - 1) / h + m := Nat.add_mul_div_right _ _ hh
  have h3 : (h - 1) / h = 0 := Nat.div_eq_of_lt (by omega)
  omega

/-- Case analysis on `thumbnailSize 1024 1024` outside the bound: the
result caps one dimension at 1024 and rounds the other to the floor or
the ceiling of the exact aspect-preserving value (clamped to at least 1). -/
lemma thumbnailSize_cases (w h : Nat) (hout : ¬(w ≤ 1024 ∧ h ≤ 1024)) :
    (w * 1024 ≤ h * 1024 ∧
      ∃ n, thumbnailSize 1024 1024 w h = (n, 1024) ∧
        (n = max (1024 * w / h) 1 ∨ n = max ((1024 * w + h - 1) / h) 1)) ∨
    (¬(w * 1024 ≤ h * 1024) ∧
      ∃ n, thumbnailSize 1024 1024 w h = (1024, n) ∧
        (n = max (1024 * h / w) 1 ∨ n = max ((1024 * h + w - 1) / w) 1)) := by
  simp only [thumbnailSize, if_neg hout]
  split
  · next hb =>
      left
      refine ⟨hb, ?_⟩
      split
      · exact ⟨_, rfl, Or.inl rfl⟩
      · exact ⟨_, rfl, Or.inr rfl⟩
  · next hb =>
      right
      refine ⟨hb, ?_⟩
      split
      · next hf => exact ⟨_, rfl, Or.inl (by rw [hf])⟩
      · split
        · exact ⟨_, rfl, Or.inl rfl⟩
        · exact ⟨_, rfl, Or.inr rfl⟩

/-- Outside the bound, `thumbnailSize 1024 1024` produces dimensions at
most 1024 that preserve the aspect ratio within rounding tolerance. -/
lemma thumbnailSize_spec (w h : Nat) (hex : 1024 < w ∨ 1024 < h) :
    (thumbnailSize 1024 1024 w h).1 ≤ 1024 ∧
    (thumbnailSize 1024 1024 w h).2 ≤ 1024 ∧
    ((((thumbnailSize 1024 1024 w h).1 * h : Nat) : Int) -
      ((w * (thumbnailSize 1024 1024 w h).2 : Nat) : Int)).natAbs ≤ max w h := by
  have hout : ¬(w ≤ 1024 ∧ h ≤ 1024) := by omega
  rcases thumbnailSize_cases w h hout with ⟨hb, n, heq, hn⟩ | ⟨hb, n, heq, hn⟩
  · have hh : 0 < h := by omega
    have hn1024 : n ≤ 1024 := by
      rcases hn with rfl | rfl
      · exact max_le (div_le_of_le_mul hh (by omega)) (by omega)
      · exact max_le (ceilDiv_le_of_le_mul hh (by omega)) (by omega)
    rw [heq]
    refine ⟨hn1024, le_refl 1024, ?_⟩
    have habs : (((n * h : Nat) : Int) - ((1024 * w : Nat) : Int)).natAbs ≤ h := by
      rcases hn with rfl | rfl
      · exact round_floor_abs (1024 * w) h hh
      · exact round_ceil_abs (1024 * w) h hh
    rw [Nat.mul_comm w 1024]
    exact le_trans habs (le_max_right w h)
  · have hw : 0 < w := by omega
    have hn1024 : n ≤ 1024 := by
      rcases hn with rfl | rfl
      · exact max_le (div_le_of_le_mul hw (by omega)) (by omega)
      · exact max_le (ceilDiv_le_of_le_mul hw (by omega)) (by omega)
    rw [heq]
    refine ⟨le_refl 1024, hn1024, ?_⟩
    have habs : (((n * w : Nat) : Int) - ((1024 * h : Nat) : Int)).natAbs ≤ w := by
      rcases hn with rfl | rfl
      · exact round_floor_abs (1024 * h) w hw
      · exact round_ceil_abs (1024 * h) w hw
    rw [natAbs_cast_sub_comm, Nat.mul_comm w n]
    exact le_trans habs (le_max_left w h)

/-- Within the bound `thumbnailSize` is the identity; in every case both
output dimensions are at most 1024. -/
lemma thumbnailSize_le (w h : Nat) :
    (thumbnailSize 1024 1024 w h).1 ≤ 1024 ∧
    (thumbnailSize 1024 1024 w h).2 ≤ 1024 := by
  by_cases hin : w ≤ 1024 ∧ h ≤ 1024
  · simp only [thumbnailSize, if_pos hin]
    exact hin
  · have := thumbnailSize_spec w h (by omega)
    exact ⟨this.1, this.2.1⟩

/-! ## Structural lemmas about the normalization pipeline -/

/-- Within the bound, `resize_image_if_needed` returns the image
unchanged. -/
lemma resize_eq_of_within (r : Img → Nat × Nat → Nat → Nat → Px) (img : Img)
    (hw : img.width ≤ 1024) (hh : img.height ≤ 1024) :
    resize_image_if_needed r img = img := by
  simp only [resize_image_if_needed]
  rw [if_neg (show ¬(1024 < img.width ∨ 1024 < img.height) by omega)]

/-- After `resize_image_if_needed`, both dimensions are at most 1024. -/
lemma resize_dims_le (r : Img → Nat × Nat → Nat → Nat → Px) (img : Img) :
    (resize_image_if_needed r img).width ≤ 1024 ∧
    (resize_image_if_needed r img).height ≤ 1024 := by
  simp only [resize_image_if_needed]
  split
  · exact ⟨(thumbnailSize_le img.width img.height).1,
      (thumbnailSize_le img.width img.height).2⟩
  · next hc => exact ⟨by omega, by omega⟩

/-- The map `exif_transpose` keeps or swaps the dimensions, so it preserves the
1024 bound. -/
lemma exif_transpose_dims_le (img : Img)
    (hw : img.width ≤ 1024) (hh : img.height ≤ 1024) :
    (exif_transpose img).width ≤ 1024 ∧ (exif_transpose img).height ≤ 1024 := by
  unfold exif_transpose
  repeat' split
  all_goals first
  | exact ⟨hw, hh⟩
  | exact ⟨hh, hw⟩

/-- After `exif_transpose`, the orientation tag is never an active value
(2 through 8). -/
lemma exif_transpose_orientation_ne (img : Img) :
    (exif_transpose img).orientation ≠ 2 ∧ (exif_transpose img).orientation ≠ 3 ∧
    (exif_transpose img).orientation ≠ 4 ∧ (exif_transpose img).orientation ≠ 5 ∧
    (exif_transpose img).orientation ≠ 6 ∧ (exif_transpose img).orientation ≠ 7 ∧
    (exif_transpose img).orientation ≠ 8 := by
  unfold exif_transpose
  repeat' split
  all_goals simp_all

/-- The map `exif_transpose` does nothing on an image whose orientation tag is
not an active value. -/
lemma exif_transpose_eq_of_ne (img : Img)
    (h : img.orientation ≠ 2 ∧ img.orientation ≠ 3 ∧ img.orientation ≠ 4 ∧
      img.orientation ≠ 5 ∧ img.orientation ≠ 6 ∧ img.orientation ≠ 7 ∧
      img.orientation ≠ 8) :
    exif_transpose img = img := by
  unfold exif_transpose
  rw [if_neg h.1, if_neg h.2.1, if_neg h.2.2.1, if_neg h.2.2.2.1,
    if_neg h.2.2.2.2.1, if_neg h.2.2.2.2.2.1, if_neg h.2.2.2.2.2.2]

/-- The output of `optimize_image_for_api` is always an `RGB` image (no
transparency channel, whatever the input mode). -/
lemma optimize_mode (r : Img → Nat × Nat → Nat → Nat → Px) (img : Img) :
    (optimize_image_for_api r img).mode = .RGB := by
  simp only [optimize_image_for_api]
  split
  · rfl
  · split
    · rfl
    · next h2 => exact not_not.mp h2

/-- The output of `optimize_image_for_api` fits the 1024x1024 bound. -/
lemma optimize_dims_le (r : Img → Nat × Nat → Nat → Nat → Px) (img : Img) :
    (optimize_image_for_api r img).width ≤ 1024 ∧
    (optimize_image_for_api r img).height ≤ 1024 := by
  have hr := resize_dims_le r img
  have he := exif_transpose_dims_le (resize_image_if_needed r img) hr.1 hr.2
  simp only [optimize_image_for_api]
  split
  · constructor
    · split
      · exact he.1
      · exact he.1
    · split
      · exact he.2
      · exact he.2
  · split
    · exact ⟨he.1, he.2⟩
    · exact ⟨he.1, he.2⟩

/-- The output of `optimize_image_for_api` never carries an active
orientation tag. -/
lemma optimize_orientation_ne (r : Img → Nat × Nat → Nat → Nat → Px) (img : Img) :
    (optimize_image_for_api r img).orientation ≠ 2 ∧
    (optimize_image_for_api r img).orientation ≠ 3 ∧
    (optimize_image_for_api r img).orientation ≠ 4 ∧
    (optimize_image_for_api r img).orientation ≠ 5 ∧
    (optimize_image_for_api r img).orientation ≠ 6 ∧
    (optimize_image_for_api r img).orientation ≠ 7 ∧
    (optimize_image_for_api r img).orientation ≠ 8 := by
  have he := exif_transpose_orientation_ne (resize_image_if_needed r img)
  simp only [optimize_image_for_api]
  split
  · norm_num
  · split
    · exact he
    · exact he

/-! ## Claims about the image normalizer -/

/-- Claim C4. Normalization is idempotent: applying
`optimize_image_for_api` twice is pixel-equivalent to applying it once
(for every resampling kernel). -/
theorem normalize_idempotent (r : Img → Nat × Nat → Nat → Nat → Px) (img : Img) :
    pixEquiv (optimize_image_for_api r (optimize_image_for_api r img))
      (optimize_image_for_api r img) := by
  have hd := optimize_dims_le r img
  have hm := optimize_mode r img
  have ho := optimize_orientation_ne r img
  have key : optimize_image_for_api r (optimize_image_for_api r img) =
      optimize_image_for_api r img := by
    set y := optimize_image_for_api r img with hy
    have h1 : resize_image_if_needed r y = y := resize_eq_of_within r y hd.1 hd.2
    have h2 : exif_transpose y = y := exif_transpose_eq_of_ne y ho
    have hc1 : ¬(y.mode = .RGBA ∨ y.mode = .LA ∨ y.mode = .P) := by
      rw [hm]; simp
    have hc2 : ¬(y.mode ≠ .RGB) := by rw [hm]; simp
    simp only [optimize_image_for_api]
    rw [h1, h2, if_neg hc1, if_neg hc2]
  rw [key]
  exact ⟨rfl, rfl, rfl, fun x y _ _ => rfl⟩

/-- Claim C3. Within the 1024x1024 bound the resize step is a no-op on the
image; outside it, the resized dimensions stay within the bound and keep
the aspect ratio within rounding tolerance; and the full normalization
always stays within the bound. -/
theorem resize_bounds_aspect (r : Img → Nat × Nat → Nat → Nat → Px) (img : Img) :
    ((img.width ≤ 1024 ∧ img.height ≤ 1024) → resize_image_if_needed r img = img) ∧
    ((1024 < img.width ∨ 1024 < img.height) →
        (resize_image_if_needed r img).width ≤ 1024 ∧
        (resize_image_if_needed r img).height ≤ 1024 ∧
        ((((resize_image_if_needed r img).width * img.height : Nat) : Int) -
          ((img.width * (resize_image_if_needed r img).height : Nat) : Int)).natAbs ≤
            max img.width img.height) ∧
    (optimize_image_for_api r img).width ≤ 1024 ∧
    (optimize_image_for_api r img).height ≤ 1024 := by
  refine ⟨fun hin => resize_eq_of_within r img hin.1 hin.2, fun hex => ?_,
    (optimize_dims_le r img).1, (optimize_dims_le r img).2⟩
  have hs := thumbnailSize_spec img.width img.height hex
  have hres : resize_image_if_needed r img =
      { img with width := (thumbnailSize 1024 1024 img.width img.height).1,
                 height := (thumbnailSize 1024 1024 img.width img.height).2,
                 px := r img (thumbnailSize 1024 1024 img.width img.height) } := by
    simp only [resize_image_if_needed, if_pos hex]
  rw [hres]
  exact ⟨hs.1, hs.2.1, hs.2.2⟩

/-- Witness for `resize_bounds_aspect` at concrete inputs: a 100x100
image is untouched; a 2048x1024 image is brought within the bound with
its aspect ratio preserved. -/
theorem resize_bounds_aspect_witness :
    resize_image_if_needed sampleNearest exSmall = exSmall ∧
    (resize_image_if_needed sampleNearest exWide).width ≤ 1024 ∧
    (resize_image_if_needed sampleNearest exWide).height ≤ 1024 ∧
    ((((resize_image_if_needed sampleNearest exWide).width * exWide.height : Nat) : Int) -
      ((exWide.width * (resize_image_if_needed sampleNearest exWide).height : Nat) : Int)).natAbs ≤
        max exWide.width exWide.height :=
  ⟨(resize_bounds_aspect sampleNearest exSmall).1 (by decide),
   ((resize_bounds_aspect sampleNearest exWide).2.1 (by decide)).1,
   ((resize_bounds_aspect sampleNearest exWide).2.1 (by decide)).2.1,
   ((resize_bounds_aspect sampleNearest exWide).2.1 (by decide)).2.2⟩

/-- Claim C2, counterexample: `optimize_image_for_api` is not free of side
effects on its input: on a 2048x1024 image the in-place `thumbnail`
changes the dimensions of the object of the caller. -/
theorem resize_mutates_input :
    (optimize_input_after sampleNearest exWide).width ≠ exWide.width ∧
    ¬ pixEquiv (optimize_input_after sampleNearest exWide) exWide :=
  ⟨by decide, fun hpe => absurd hpe.1 (by decide)⟩

/-- Claim C2, amended: The input image is left unchanged exactly when it is
already within the 1024x1024 bound; when either dimension exceeds the
bound, the call mutates the input in place to the resized image (the
resize result and the input alias the same object). -/
theorem input_after_optimize (r : Img → Nat × Nat → Nat → Nat → Px) (img : Img) :
    ((img.width ≤ 1024 ∧ img.height ≤ 1024) → optimize_input_after r img = img) ∧
    ((1024 < img.width ∨ 1024 < img.height) →
        optimize_input_after r img =
          { img with width := (thumbnailSize 1024 1024 img.width img.height).1,
                     height := (thumbnailSize 1024 1024 img.width img.height).2,
                     px := r img (thumbnailSize 1024 1024 img.width img.height) }) := by
  constructor
  · intro hin
    exact resize_eq_of_within r img hin.1 hin.2
  · intro hex
    simp only [optimize_input_after, resize_image_if_needed, if_pos hex]

/-- Witness for `input_after_optimize` at concrete inputs. -/
theorem input_after_optimize_witness :
    optimize_input_after sampleNearest exSmall = exSmall ∧
    optimize_input_after sampleNearest exWide =
      { exWide with width := (thumbnailSize 1024 1024 exWide.width exWide.height).1,
                    height := (thumbnailSize 1024 1024 exWide.width exWide.height).2,
                    px := sampleNearest exWide (thumbnailSize 1024 1024 exWide.width exWide.height) } :=
  ⟨(input_after_optimize sampleNearest exSmall).1 (by decide),
   (input_after_optimize sampleNearest exWide).2 (by decide)⟩

/-- Claim C1, counterexample: An `LA` image is pasted onto the white
background without the alpha mask, so a fully transparent black pixel
stays black instead of becoming opaque white. -/
theorem la_transparent_not_white :
    exLA.mode = .LA ∧ fullyTransparentAt exLA 0 0 = true ∧
    (optimize_image_for_api sampleNearest exLA).px 0 0 = .rgb 0 0 0 ∧
    (optimize_image_for_api sampleNearest exLA).px 0 0 ≠ .rgb 255 255 255 := by
  decide

/-- Claim C1, amended: For every input with a transparency-capable mode
(`RGBA`, `LA` or `P`) the normalized output carries no transparency
channel (its mode is `RGB`); and for the modes whose alpha actually
drives the compositing mask — `RGBA` and `P`, but not `LA` — every fully
transparent pixel of an in-bound, orientation-free input is opaque white
in the output. -/
theorem transparency_white_composite (r : Img → Nat × Nat → Nat → Nat → Px)
    (img : Img) (hm : img.mode = .RGBA ∨ img.mode = .LA ∨ img.mode = .P) :
    (optimize_image_for_api r img).mode = .RGB ∧
    (img.width ≤ 1024 → img.height ≤ 1024 → img.orientation = 0 →
      (img.mode = .RGBA ∨ img.mode = .P) →
      ∀ x y, x < img.width → y < img.height → fullyTransparentAt img x y = true →
        (optimize_image_for_api r img).px x y = .rgb 255 255 255) := by
  refine ⟨optimize_mode r img, ?_⟩
  intro hw hh ho hm2 x y hx hy htr
  have h1 : resize_image_if_needed r img = img := resize_eq_of_within r img hw hh
  have h2 : exif_transpose img = img :=
    exif_transpose_eq_of_ne img (by rw [ho]; norm_num)
  simp only [optimize_image_for_api, h1, h2]
  rw [if_pos hm]
  rcases hm2 with hRGBA | hP
  · rw [if_neg (by rw [hRGBA]; simp)]
    cases hpx : img.px x y with
    | rgba rr gg bb aa =>
        have haa : aa = 0 := by
          simp only [fullyTransparentAt, hRGBA, hpx] at htr
          simpa using htr
        subst haa
        simp only [hRGBA, hpx, pasteOnWhite, pxToRGB, pxAlpha]
        norm_num [blendChannel, muldiv255]
    | rgb rr gg bb => simp [fullyTransparentAt, hRGBA, hpx] at htr
    | la v aa => simp [fullyTransparentAt, hRGBA, hpx] at htr
    | l v => simp [fullyTransparentAt, hRGBA, hpx] at htr
    | p i => simp [fullyTransparentAt, hRGBA, hpx] at htr
  · rw [if_pos hP]
    cases hpx : img.px x y with
    | p i =>
        have hti : img.transparency = some i := by
          simp only [fullyTransparentAt, hP, hpx] at htr
          simpa using htr
        simp only [convertRGBA, hpx, pxToRGBA, hti, pasteOnWhite, pxAlpha, pxToRGB]
        norm_num [blendChannel, muldiv255]
    | rgb rr gg bb => simp [fullyTransparentAt, hP, hpx] at htr
    | rgba rr gg bb aa => simp [fullyTransparentAt, hP, hpx] at htr
    | la v aa => simp [fullyTransparentAt, hP, hpx] at htr
    | l v => simp [fullyTransparentAt, hP, hpx] at htr

/-- Witness for `transparency_white_composite` at a concrete input: a 1x1
fully transparent `RGBA` image comes out opaque white. -/
theorem transparency_white_composite_witness :
    (optimize_image_for_api sampleNearest exRGBA).mode = .RGB ∧
    (optimize_image_for_api sampleNearest exRGBA).px 0 0 = .rgb 255 255 255 :=
  ⟨(transparency_white_composite sampleNearest exRGBA (Or.inl rfl)).1,
   (transparency_white_composite sampleNearest exRGBA (Or.inl rfl)).2
     (by decide) (by decide) rfl (Or.inl rfl) 0 0 (by decide) (by decide) (by decide)⟩

end Dino
